import Mathlib

/-
Verification development for the BarcodeLive repository (a browser PDF417
barcode scanner with a small Express persistence backend).

The development shallowly embeds, in Lean:
  * the in-memory scan storage and the three HTTP routes
    (src/server/storage.ts, registerRoutes),
  * the geometry filter of the capture pipeline (modelled from the spec,
    section 4.2, as its implementation revision is not among the provided
    source files),
  * the cooldown gate of the scanner (Camera.tsx, startCooldown and the
    decode-result callback),
  * the capture-session resource lifecycle (Camera.tsx, cleanupResources,
    initializeCamera, stopScanning, startScanning and the settings effect).

JavaScript machine integers are modelled as Int/Nat, wall-clock times as
Nat milliseconds, and MediaStream handles as Nat identifiers.  React state
snapshots captured by closures are passed explicitly where the code's
behaviour depends on them.
-/

namespace BarcodeLive

/-! ## Server data model (src/server/storage.ts) -/

/-- A persisted scan record, as produced by `MemStorage.createScan`:
`{...insertScan, id, timestamp: new Date()}`.  The timestamp is the
millisecond clock value (`Date.getTime`). -/
structure Scan where
  id : Nat
  content : String
  format : String
  pattern : Option String
  timestamp : Int
deriving DecidableEq, Repr

/-- The validated create-scan payload (`InsertScan` in @shared/schema):
`{content: string, format: string, pattern?: string}`. -/
structure InsertScan where
  content : String
  format : String
  pattern : Option String
deriving DecidableEq, Repr

/-- `MemStorage`: a `Map<number, Scan>` keyed by ever-increasing fresh ids
together with `currentId`.  Since every insertion uses a fresh key, the
map's value sequence in insertion order is a list. -/
structure MemStorage where
  scans : List Scan
  currentId : Nat
deriving DecidableEq, Repr

/-- The comparator sort in `getRecentScans`:
`.sort((a, b) => b.timestamp.getTime() - a.timestamp.getTime())`, i.e. a
stable sort into newest-first order.  `Array.prototype.sort` is stable
(ES2019), which `List.mergeSort` matches. -/
def sortNewestFirst (l : List Scan) : List Scan :=
  l.mergeSort (fun a b => decide (b.timestamp ≤ a.timestamp))

/-- JavaScript `Array.prototype.slice(0, e)` on a list: a non-negative end
index truncates to the first `e` elements; a negative end index counts
from the end of the array (`max(length + e, 0)` elements). -/
def jsSliceTo {α : Type} (l : List α) (e : Int) : List α :=
  if 0 ≤ e then l.take e.toNat else l.take (l.length - (-e).toNat)

/-- `MemStorage.createScan` (storage.ts lines 17-26): assigns `currentId`
as id, stamps the current time, stores the record under the fresh id and
returns it.  `now` is the server clock at the call. -/
def MemStorage.createScan (st : MemStorage) (b : InsertScan) (now : Int) :
    MemStorage × Scan :=
  let scan : Scan :=
    { id := st.currentId, content := b.content, format := b.format,
      pattern := b.pattern, timestamp := now }
  ({ scans := st.scans ++ [scan], currentId := st.currentId + 1 }, scan)

/-- `MemStorage.getRecentScans` (storage.ts lines 28-32):
`Array.from(this.scans.values()).sort(newest-first).slice(0, limit)`. -/
def MemStorage.getRecentScans (st : MemStorage) (limit : Int) : List Scan :=
  jsSliceTo (sortNewestFirst st.scans) limit

/-- Modelled from the spec: the storage revision implementing `clearScans`
is not among the provided source files; only its caller
(`registerRoutes`: `POST /api/scans/clear` awaits `storage.clearScans()`)
is.  Per the spec, clear scans "removes all stored scans".  The id counter
is left untouched (the spec says nothing about resetting ids). -/
def MemStorage.clearScans (st : MemStorage) : MemStorage :=
  { st with scans := [] }

/-! ## HTTP routes (registerRoutes) -/

/-- A raw `POST /api/scans` request body: each expected field either
present (a string) or missing. -/
structure RawBody where
  content : Option String
  format : Option String
  pattern : Option String
deriving DecidableEq, Repr

/-- Modelled from the spec: `insertScanSchema` lives in `@shared/schema`,
which is not among the provided source files; only its caller
(`insertScanSchema.safeParse(req.body)`) is.  Per the spec the endpoint
"accepts {content: string, format: string, pattern?: string}" and an
empty `content` is a validation failure, so the schema requires `content`
and `format` to be present strings with `content` non-empty, `pattern`
optional. -/
def safeParse (b : RawBody) : Option InsertScan :=
  match b.content, b.format with
  | some c, some f =>
      if c = "" then none
      else some { content := c, format := f, pattern := b.pattern }
  | _, _ => none

/-- Response of the create-scan route: the stored record, or HTTP 400. -/
inductive PostScanResponse where
  | ok (scan : Scan)
  | badRequest
deriving DecidableEq, Repr

/-- `POST /api/scans` (registerRoutes): on schema failure respond 400 with
no storage call; otherwise store the parsed payload and return the new
record. -/
def postScanRoute (st : MemStorage) (now : Int) (b : RawBody) :
    MemStorage × PostScanResponse :=
  match safeParse b with
  | none => (st, PostScanResponse.badRequest)
  | some data =>
      let r := st.createScan data now
      (r.1, PostScanResponse.ok r.2)

/-- The `limit` query parameter of `GET /api/scans/recent`: absent, a
string that `Number` parses to an integer `q`, or a non-numeric string
(`Number` gives `NaN`). -/
inductive LimitParam where
  | absent
  | nonNumeric
  | num (q : Int)
deriving DecidableEq, Repr

/-- `const limit = Number(req.query.limit) || 10`: `Number(undefined)` and
`Number` of a non-numeric string are `NaN` (falsy, so 10); a parsed `0` is
falsy as well (so 10); every other number passes through.  Total: no
request value can make this throw. -/
def parseLimit : LimitParam → Int
  | LimitParam.absent => 10
  | LimitParam.nonNumeric => 10
  | LimitParam.num q => if q = 0 then 10 else q

/-- `GET /api/scans/recent` (registerRoutes): parse the limit, delegate to
`getRecentScans`. -/
def getRecentRoute (st : MemStorage) (p : LimitParam) : List Scan :=
  st.getRecentScans (parseLimit p)

/-- `POST /api/scans/clear` (registerRoutes): clear storage, respond with
a success message (the Bool records that the route answered 200). -/
def clearRoute (st : MemStorage) : MemStorage × Bool :=
  (st.clearScans, true)

/-! ## Geometry filter (spec section 4.2) -/

/-- A 2-D decode-result point, in decoder/frame coordinates. -/
structure ResultPoint where
  x : Rat
  y : Rat
deriving DecidableEq, Repr

/-- The on-screen target region rectangle (left, top, width, height). -/
structure TargetRegion where
  left : Rat
  top : Rat
  width : Rat
  height : Rat
deriving DecidableEq, Repr

/-- The frame-to-screen mapping: independent horizontal and vertical scale
factors (displayed size over native pixel size) and the displayed bounding
box offset. -/
structure ViewportTransform where
  scaleX : Rat
  scaleY : Rat
  offsetX : Rat
  offsetY : Rat
deriving DecidableEq, Repr

/-- Modelled from the spec: the centroid of the result points, "arithmetic
mean of x and y independently", unweighted. -/
def centroid (ps : List ResultPoint) : ResultPoint :=
  { x := (ps.map (fun p => p.x)).sum / (ps.length : Rat),
    y := (ps.map (fun p => p.y)).sum / (ps.length : Rat) }

/-- Modelled from the spec: map a frame-space point into on-screen
coordinates using the viewport transform. -/
def mapToScreen (T : ViewportTransform) (p : ResultPoint) : ResultPoint :=
  { x := T.offsetX + T.scaleX * p.x, y := T.offsetY + T.scaleY * p.y }

/-- Modelled from the spec: membership in the closed rectangle
`[left, left+width] × [top, top+height]` (boundary inclusive). -/
def inTargetRegion (r : TargetRegion) (p : ResultPoint) : Bool :=
  decide (r.left ≤ p.x) && decide (p.x ≤ r.left + r.width) &&
  decide (r.top ≤ p.y) && decide (p.y ≤ r.top + r.height)

/-- Modelled from the spec (section 4.2): the geometry filter
`isWithinTarget(points, region, viewportTransform)`.  The implementation
revision of this filter is not among the provided source files (the
provided revisions delegate region filtering to the decoder's crop area),
so it is modelled from the spec's algorithm: fewer than 2 points reject;
otherwise accept iff the mapped centroid lies within the closed target
rectangle.  The function is total, so no input makes it throw. -/
def isWithinTarget (ps : List ResultPoint) (r : TargetRegion)
    (T : ViewportTransform) : Bool :=
  if ps.length < 2 then false
  else inTargetRegion r (mapToScreen T (centroid ps))

/-! ## Cooldown gate (Camera.tsx: startCooldown and the decode callback)

The scanner runs on the browser's single cooperative scheduler: the
decoder's per-frame callback and the cooldown timer callback interleave
without preemption.  The gate's state is the pair "isCoolingDownRef flag +
pending timer"; since `startCooldown` always sets the flag and schedules
the timer together, and the timer callback always clears both, the state
is exactly `Option Nat`: `some e` when cooling down with the disarm timer
scheduled for time `e`, `none` otherwise.  A timer scheduled for `e` has
fired before any callback that runs at time `t ≥ e`. -/

/-- `startCooldown` (Camera.tsx lines 330-345 with the fixed 3000 ms
duration, lines 916-929 with `settings.cooldownTime`): clears any pending
disarm timer, sets the cooling-down flag and schedules disarming after
`d` ms, replacing rather than stacking timers. -/
def startCooldown (d : Nat) (now : Nat) : Option Nat :=
  some (now + d)

/-- Timer delivery before a callback running at time `now`: a pending
disarm timer scheduled for `e ≤ now` has fired, clearing the flag and the
timer handle. -/
def fireCooldownTimer (gate : Option Nat) (now : Nat) : Option Nat :=
  match gate with
  | some e => if e ≤ now then none else some e
  | none => none

/-- The decode-result callback (Camera.tsx lines 504-516): on a decode
result, if not cooling down, start the cooldown and invoke the scan sink
(`saveScan.mutateAsync`); if cooling down, ignore the detection.  Returns
the new gate state and whether the sink was invoked. -/
def onBarcodeResult (d : Nat) (gate : Option Nat) (now : Nat) :
    Option Nat × Bool :=
  match fireCooldownTimer gate now with
  | some e => (some e, false)
  | none => (startCooldown d now, true)

/-- Deliver a sequence of decode events (their arrival times) through the
gate, collecting the times at which the scan sink was invoked. -/
def runDetections (d : Nat) (gate : Option Nat) (events : List Nat) :
    Option Nat × List Nat :=
  match events with
  | [] => (gate, [])
  | t :: rest =>
      let r := onBarcodeResult d gate t
      let rec2 := runDetections d r.1 rest
      (rec2.1, (if r.2 then [t] else []) ++ rec2.2)

/-! ## Capture session resource lifecycle (Camera.tsx)

The session state mirrors the component's refs and React state: stream
handles are `Nat` identifiers; `MediaWorld.live` lists the identifiers of
streams whose tracks are currently live (not stopped).  `Session.stream`
is the committed React state value; where the code's behaviour depends on
the render-time closure snapshot of that state (a `const` captured when
the render created the callbacks, unaffected by later `setStream` calls),
the snapshot is passed explicitly. -/

/-- `ScannerSettings` (ScannerSettings.tsx): cooldown duration in ms and
the expected-data regular-expression source.  The horizontal/vertical
flip flags only affect the video element's CSS transform and are omitted
from the decode path. -/
structure ScannerSettings where
  cooldownTime : Nat
  dataPattern : String
deriving DecidableEq, Repr

/-- The capture session's refs and state (Camera.tsx component scope):
`scanningProcess` records the decoder subscription together with the
settings its callback is bound to; `reader` and `videoRef` record whether
those refs are non-null; `cooldownTimer` whether a disarm timer is
pending. -/
structure Session where
  hasPermission : Bool
  isScanning : Bool
  stream : Option Nat
  videoRef : Bool
  videoSrc : Option Nat
  reader : Bool
  scanningProcess : Option ScannerSettings
  cooldownTimer : Bool
  isCoolingDown : Bool
deriving DecidableEq, Repr

/-- The camera hardware view: which acquired streams still have live
(unstopped) tracks. -/
structure MediaWorld where
  live : List Nat
deriving DecidableEq, Repr

/-- Observable side effects of the decoder lifecycle operations. -/
inductive ScanEffect where
  | stopDecoder
  | getUserMediaRequest
  | startDecoder (cooldownMs : Nat) (dataPattern : String)
deriving DecidableEq, Repr

/-- `stopScanning` (Camera.tsx lines 1069-1074): if a scanning process is
present, call its `stop()` (halting the decoder subscription) and clear
the handle. -/
def stopScanning (s : Session) : Session × List ScanEffect :=
  match s.scanningProcess with
  | some _ => ({ s with scanningProcess := none }, [ScanEffect.stopDecoder])
  | none => (s, [])

/-- `cleanupResources` (Camera.tsx lines 931-949).  `snapshotStream` is
the render-time value of the `stream` state captured by this closure:
the `if (stream)` test and the `stream.getTracks().forEach(stop)` body
read that captured `const`, not the committed state.  Stopping a track
that is already stopped is a no-op and throws nothing
(`MediaStreamTrack.stop` on an ended track). -/
def cleanupResources (snapshotStream : Option Nat) (s : Session)
    (w : MediaWorld) : Session × MediaWorld :=
  let s1 := (stopScanning s).1
  let r2 : Session × MediaWorld :=
    match snapshotStream with
    | some id =>
        ({ s1 with stream := none },
         { live := w.live.filter (fun x => x != id) })
    | none => (s1, w)
  let s3 :=
    if r2.1.videoRef then { r2.1 with videoSrc := none } else r2.1
  ({ s3 with
      reader := false
      cooldownTimer := false
      isCoolingDown := false }, r2.2)

/-- How far a camera-initialization attempt gets before failing. -/
inductive InitOutcome where
  | apiMissing
  | denied
  | videoLost
  | loadFailed
  | success
deriving DecidableEq, Repr

/-- `initializeCamera` (Camera.tsx lines 404-482).  The try body: check
the camera API, call `cleanupResources()`, await `getUserMedia` (which on
success allocates a fresh live stream `fresh`), re-check the video
element, commit `setStream(fresh)`, attach `srcObject`, await video-ready
(10 s timeout / play), create the reader, set permission and scanning.
The catch handler calls `cleanupResources()` again and clears permission.
Both cleanup calls run in the closure created by the current render, so
both read the same `snapshotStream = s.stream`: the catch call does not
see the stream acquired inside the very attempt it is cleaning up.
Outcomes: `apiMissing` throws before the first cleanup; `denied` fails in
`getUserMedia`; `videoLost` fails after acquisition but before
`setStream`; `loadFailed` fails in the video-ready wait (timeout or play
rejection), after `setStream` committed. -/
def initializeCamera (s : Session) (w : MediaWorld) (fresh : Nat)
    (outcome : InitOutcome) : Session × MediaWorld :=
  if s.videoRef = false then (s, w)
  else
    let snap := s.stream
    match outcome with
    | InitOutcome.apiMissing =>
        let r := cleanupResources snap s w
        ({ r.1 with hasPermission := false }, r.2)
    | InitOutcome.denied =>
        let r1 := cleanupResources snap s w
        let r2 := cleanupResources snap r1.1 r1.2
        ({ r2.1 with hasPermission := false }, r2.2)
    | InitOutcome.videoLost =>
        let r1 := cleanupResources snap s w
        let w2 : MediaWorld := { live := fresh :: r1.2.live }
        let r3 := cleanupResources snap r1.1 w2
        ({ r3.1 with hasPermission := false }, r3.2)
    | InitOutcome.loadFailed =>
        let r1 := cleanupResources snap s w
        let w2 : MediaWorld := { live := fresh :: r1.2.live }
        let s2 := { r1.1 with stream := some fresh, videoSrc := some fresh }
        let r3 := cleanupResources snap s2 w2
        ({ r3.1 with hasPermission := false }, r3.2)
    | InitOutcome.success =>
        let r1 := cleanupResources snap s w
        let w2 : MediaWorld := { live := fresh :: r1.2.live }
        ({ r1.1 with
            stream := some fresh
            videoSrc := some fresh
            reader := true
            hasPermission := true
            isScanning := true }, w2)

/-- `startScanning` (Camera.tsx lines 1031-1067).  Guard: video element,
reader and stream must all be present.  Modelled from the
`@zxing/browser` API (an external collaborator): `decodeFromConstraints(
{video: {facingMode: "environment"}}, videoElement, callback)` acquires a
NEW camera stream via `getUserMedia(constraints)` — it does not reuse the
session's stored stream — and starts a continuous decode subscription
whose callback is bound to the given settings (`settings.cooldownTime`
through `startCooldown`, `settings.dataPattern` in the saved record). -/
def startScanning (s : Session) (settings : ScannerSettings) :
    Session × List ScanEffect :=
  if s.videoRef && s.reader && s.stream.isSome then
    ({ s with scanningProcess := some settings },
     [ScanEffect.getUserMediaRequest,
      ScanEffect.startDecoder settings.cooldownTime settings.dataPattern])
  else (s, [])

/-- The settings-change effect (Camera.tsx lines 870-876): when scanning
with permission, stop the current decoder subscription and start a fresh
one against the new settings. -/
def settingsChanged (s : Session) (settings : ScannerSettings) :
    Session × List ScanEffect :=
  if s.isScanning && s.hasPermission then
    let r1 := stopScanning s
    let r2 := startScanning r1.1 settings
    (r2.1, r1.2 ++ r2.2)
  else (s, [])

/-! ## Concrete fixtures used by scenario witnesses and counterexamples -/

/-- The target region of the spec's scenario:
`{left:100, top:100, width:200, height:100}`. -/
def demoRegion : TargetRegion :=
  { left := 100, top := 100, width := 200, height := 100 }

/-- The identity frame-to-screen mapping (native resolution equals
displayed size, no offset). -/
def identityTransform : ViewportTransform :=
  { scaleX := 1, scaleY := 1, offsetX := 0, offsetY := 0 }

/-- Two result points whose centroid is the scenario's accepted point
(150, 120). -/
def acceptPoints : List ResultPoint :=
  [{ x := 100, y := 90 }, { x := 200, y := 150 }]

/-- Two result points whose centroid is the scenario's rejected point
(50, 50). -/
def rejectPoints : List ResultPoint :=
  [{ x := 40, y := 60 }, { x := 60, y := 40 }]

/-- A session before any camera acquisition: the video element is
mounted, nothing else is held. -/
def freshSession : Session :=
  { hasPermission := false, isScanning := false, stream := none,
    videoRef := true, videoSrc := none, reader := false,
    scanningProcess := none, cooldownTimer := false, isCoolingDown := false }

/-- No live camera tracks. -/
def emptyWorld : MediaWorld := { live := [] }

/-- The component's default settings (Camera.tsx DEFAULT_SETTINGS). -/
def defaultScannerSettings : ScannerSettings :=
  { cooldownTime := 3000, dataPattern := "^0934[0-9A-E]\x7b28\x7d$" }

/-- Replacement settings for a reconfigure scenario. -/
def newScannerSettings : ScannerSettings :=
  { cooldownTime := 5000, dataPattern := "^[0-9]+$" }

/-- An actively scanning session holding stream 0 with a decoder
subscription bound to the default settings. -/
def activeSession : Session :=
  { hasPermission := true, isScanning := true, stream := some 0,
    videoRef := true, videoSrc := some 0, reader := true,
    scanningProcess := some defaultScannerSettings, cooldownTimer := false,
    isCoolingDown := false }

/-- A session holding stream 3 (used for the teardown witness). -/
def streamSession : Session :=
  { hasPermission := true, isScanning := false, stream := some 3,
    videoRef := true, videoSrc := some 3, reader := true,
    scanningProcess := none, cooldownTimer := true, isCoolingDown := true }

/-- A world where stream 3's tracks are live. -/
def trackWorld : MediaWorld := { live := [3] }

/-- A stored scan record. -/
def demoScan : Scan :=
  { id := 1, content := "A", format := "PDF417", pattern := none,
    timestamp := 0 }

/-- A storage holding exactly one scan. -/
def oneScanStore : MemStorage := { scans := [demoScan], currentId := 2 }

/-- A create-scan request body whose `content` is the empty string. -/
def emptyContentBody : RawBody :=
  { content := some "", format := some "PDF417", pattern := none }

/-! ## Helper lemmas -/

/-- Removing every occurrence of `i` from a list is idempotent. -/
theorem filter_ne_self_idem (l : List Nat) (i : Nat) :
    (l.filter (fun x => x != i)).filter (fun x => x != i) =
      l.filter (fun x => x != i) := by
  rw [List.filter_filter]
  simp

/-- `i` does not survive filtering out every occurrence of `i`. -/
theorem not_mem_filter_ne_self (l : List Nat) (i : Nat) :
    i ∉ l.filter (fun x => x != i) := by
  intro h
  have := List.of_mem_filter h
  simp at this

/-- While the gate is armed until time `e`, detections arriving strictly
before `e` leave the gate unchanged and never reach the scan sink. -/
theorem runDetections_while_armed (d : Nat) (e : Nat) :
    ∀ mid : List Nat, (∀ u ∈ mid, u < e) →
      runDetections d (some e) mid = (some e, [])
  | [], _ => rfl
  | t :: rest, h => by
      have ht : t < e := h t (List.mem_cons_self t rest)
      have h1 : fireCooldownTimer (some e) t = some e := by
        simp only [fireCooldownTimer]
        rw [if_neg (by omega)]
      have h2 : onBarcodeResult d (some e) t = (some e, false) := by
        simp [onBarcodeResult, h1]
      simp [runDetections, h2,
        runDetections_while_armed d e rest
          (fun u hu => h u (List.mem_cons_of_mem t hu))]

/-- The comparator sort of `getRecentScans` orders its output
newest-first (timestamps non-increasing). -/
theorem sortNewestFirst_sorted (l : List Scan) :
    (sortNewestFirst l).Pairwise (fun a b => b.timestamp ≤ a.timestamp) := by
  unfold sortNewestFirst
  refine (List.sorted_mergeSort ?_ ?_ l).imp (fun hab => of_decide_eq_true hab)
  · intro a b c hab hbc
    simp only [decide_eq_true_eq] at hab hbc ⊢
    exact le_trans hbc hab
  · intro a b
    simp only [Bool.or_eq_true, decide_eq_true_eq]
    exact le_total b.timestamp a.timestamp

/-! ## Claim theorems -/

/-- Claim C1: the scan sink (`saveScan`) is invoked at most once per
cooldown window.  If a detection at time `t` is accepted (the sink is
invoked) with cooldown duration `d`, then every further detection
arriving strictly before `t + d` is suppressed — the sink is not
invoked and the gate state is unchanged — and a detection arriving
strictly after `t + d` is accepted again (the cooldown timer, scheduled
for `t + d`, has fired by then). -/
theorem cooldown_suppresses_until_expiry (d : Nat) (gate : Option Nat)
    (t : Nat) (mid : List Nat) (t2 : Nat)
    (hacc : (onBarcodeResult d gate t).2 = true)
    (hmid : ∀ u ∈ mid, u < t + d) (ht2 : t + d < t2) :
    (runDetections d (onBarcodeResult d gate t).1 mid).2 = [] ∧
    (onBarcodeResult d
      (runDetections d (onBarcodeResult d gate t).1 mid).1 t2).2 = true := by
  have hstate : (onBarcodeResult d gate t).1 = some (t + d) := by
    cases hfc : fireCooldownTimer gate t with
    | some e => simp [onBarcodeResult, hfc] at hacc
    | none => simp [onBarcodeResult, hfc, startCooldown]
  have hrun := runDetections_while_armed d (t + d) mid hmid
  rw [hstate, hrun]
  refine ⟨rfl, ?_⟩
  have h1 : fireCooldownTimer (some (t + d)) t2 = none := by
    simp only [fireCooldownTimer]
    rw [if_pos (by omega)]
  simp [onBarcodeResult, h1, startCooldown]

/-- Claim C1 witness: the spec scenario with `cooldownDurationMs = 3000`:
accept at t = 0, then the detection at t = 2999 is suppressed and the
detection at t = 3001 is accepted. -/
theorem cooldown_suppresses_until_expiry_witness :
    (runDetections 3000 (onBarcodeResult 3000 none 0).1 [2999]).2 = [] ∧
    (onBarcodeResult 3000
      (runDetections 3000 (onBarcodeResult 3000 none 0).1 [2999]).1
      3001).2 = true :=
  cooldown_suppresses_until_expiry 3000 none 0 [2999] 3001 (by decide)
    (by decide) (by decide)

/-- Claim C2 (code-bug evidence): a first camera-initialization attempt in
which `getUserMedia` succeeds (allocating stream 7) and the video-ready
wait then fails (10 s timeout) ends with the session on the error path
(`hasPermission = false`) while stream 7's tracks are still live: the
catch handler's `cleanupResources()` reads the render-time `stream`
closure snapshot (`null`), not the stream acquired during the attempt, so
it stops nothing — contradicting the claim that zero MediaStream tracks
remain allocated after the failure handler completes. -/
theorem initializeCamera_failure_leaks_fresh_stream :
    (initializeCamera freshSession emptyWorld 7
        InitOutcome.loadFailed).2.live = [7] ∧
    (initializeCamera freshSession emptyWorld 7
        InitOutcome.loadFailed).1.hasPermission = false ∧
    (initializeCamera freshSession emptyWorld 7
        InitOutcome.loadFailed).1.stream = some 7 :=
  ⟨by decide, by decide, by decide⟩

/-- Claim C3: `cleanupResources` is idempotent.  Calling it twice in a row
(the second call running in the same closure, hence with the same
render-time stream snapshot) equals calling it once; it throws nothing
(it is a total function, and stopping an already-stopped track is a
no-op); after it runs the stream, reader, scanning-process and
cooldown-timer handles are all cleared and the tracks of the session's
stream are no longer live. -/
theorem cleanupResources_idempotent (s : Session) (w : MediaWorld) :
    cleanupResources s.stream (cleanupResources s.stream s w).1
        (cleanupResources s.stream s w).2 = cleanupResources s.stream s w ∧
    (cleanupResources s.stream s w).1.stream = none ∧
    (cleanupResources s.stream s w).1.reader = false ∧
    (cleanupResources s.stream s w).1.scanningProcess = none ∧
    (cleanupResources s.stream s w).1.cooldownTimer = false ∧
    ∀ i, s.stream = some i → i ∉ (cleanupResources s.stream s w).2.live := by
  obtain ⟨hp, sc, str, vr, vs, rd, sp, ct, cd⟩ := s
  refine ⟨?_, ?_, ?_, ?_, ?_, ?_⟩ <;>
    cases str <;> cases vr <;> cases sp <;>
      simp [cleanupResources, stopScanning, filter_ne_self_idem,
        not_mem_filter_ne_self]

/-- Claim C3 witness: tearing down a session that holds stream 3 (with
its tracks live, a pending cooldown timer and a reader) twice in a row
equals tearing it down once, clears the stream handle and leaves stream
3's tracks stopped. -/
theorem cleanupResources_idempotent_witness :
    cleanupResources streamSession.stream
        (cleanupResources streamSession.stream streamSession trackWorld).1
        (cleanupResources streamSession.stream streamSession trackWorld).2 =
      cleanupResources streamSession.stream streamSession trackWorld ∧
    (cleanupResources streamSession.stream streamSession
        trackWorld).1.stream = none ∧
    3 ∉ (cleanupResources streamSession.stream streamSession
        trackWorld).2.live :=
  ⟨(cleanupResources_idempotent streamSession trackWorld).1,
   (cleanupResources_idempotent streamSession trackWorld).2.1,
   (cleanupResources_idempotent streamSession trackWorld).2.2.2.2.2 3 rfl⟩

/-- Claim C4 counterexample: a settings change on an actively scanning
session DOES issue a new `getUserMedia` request — the fresh decoder
subscription is started through `decodeFromConstraints`, which acquires
its own camera stream — refuting the claim that no new getUserMedia
permission request is issued and the existing MediaStream is reused. -/
theorem settingsChanged_requests_camera_cex :
    ScanEffect.getUserMediaRequest ∈
      (settingsChanged activeSession newScannerSettings).2 := by decide

/-- Claim C4 (amended): for every configuration change while the session
is actively scanning (permission granted, decoder subscription running,
video element, reader and stream handle present), the settings effect
stops the old decoder subscription and starts a fresh one bound to the
new `cooldownTime`/`dataPattern`, and the session's stored stream handle
is untouched; however the fresh subscription is started via
`decodeFromConstraints` and therefore issues a new `getUserMedia`
request instead of decoding from the already-open stream. -/
theorem settingsChanged_fresh_subscription (s : Session)
    (settings : ScannerSettings)
    (h1 : s.isScanning = true) (h2 : s.hasPermission = true)
    (h3 : s.videoRef = true) (h4 : s.reader = true)
    (h5 : s.stream.isSome = true) (h6 : s.scanningProcess.isSome = true) :
    (settingsChanged s settings).1.scanningProcess = some settings ∧
    (settingsChanged s settings).1.stream = s.stream ∧
    (settingsChanged s settings).2 =
      [ScanEffect.stopDecoder, ScanEffect.getUserMediaRequest,
       ScanEffect.startDecoder settings.cooldownTime
         settings.dataPattern] := by
  cases hsp : s.scanningProcess with
  | none => rw [hsp] at h6; simp at h6
  | some old =>
      refine ⟨?_, ?_, ?_⟩ <;>
        simp [settingsChanged, stopScanning, startScanning, h1, h2, h3,
          h4, h5, hsp]

/-- Claim C4 amended witness: changing the settings of the concrete
active session stops the old subscription, requests a camera stream anew
and starts a decoder bound to the new settings. -/
theorem settingsChanged_fresh_subscription_witness :
    (settingsChanged activeSession newScannerSettings).1.scanningProcess =
        some newScannerSettings ∧
    (settingsChanged activeSession newScannerSettings).1.stream =
        activeSession.stream ∧
    (settingsChanged activeSession newScannerSettings).2 =
      [ScanEffect.stopDecoder, ScanEffect.getUserMediaRequest,
       ScanEffect.startDecoder newScannerSettings.cooldownTime
         newScannerSettings.dataPattern] :=
  settingsChanged_fresh_subscription activeSession newScannerSettings rfl
    rfl rfl rfl rfl rfl

/-- Claim C5: for every decode result with at least 2 points and every
target region, the geometry filter accepts iff the unweighted centroid
(the arithmetic mean of the points' coordinates), mapped into on-screen
coordinates by the viewport transform, lies within the CLOSED rectangle
`[left, left+width] × [top, top+height]` — the inequalities are
non-strict, so a centroid exactly on a boundary edge is accepted. -/
theorem isWithinTarget_iff_centroid_in_region (ps : List ResultPoint)
    (r : TargetRegion) (T : ViewportTransform) (h : 2 ≤ ps.length) :
    isWithinTarget ps r T = true ↔
      (r.left ≤ T.offsetX +
          T.scaleX * ((ps.map (fun p => p.x)).sum / (ps.length : Rat)) ∧
       T.offsetX +
          T.scaleX * ((ps.map (fun p => p.x)).sum / (ps.length : Rat)) ≤
          r.left + r.width ∧
       r.top ≤ T.offsetY +
          T.scaleY * ((ps.map (fun p => p.y)).sum / (ps.length : Rat)) ∧
       T.offsetY +
          T.scaleY * ((ps.map (fun p => p.y)).sum / (ps.length : Rat)) ≤
          r.top + r.height) := by
  have hlt : ¬ ps.length < 2 := Nat.not_lt.mpr h
  simp [isWithinTarget, hlt, inTargetRegion, mapToScreen, centroid,
    and_assoc]

/-- Claim C5 witness: the spec scenario — region
`{left:100, top:100, width:200, height:100}`: a point set with centroid
(150, 120) is accepted (derived through the claim theorem) and one with
centroid (50, 50) is rejected. -/
theorem isWithinTarget_iff_centroid_in_region_witness :
    isWithinTarget acceptPoints demoRegion identityTransform = true ∧
    isWithinTarget rejectPoints demoRegion identityTransform = false :=
  ⟨(isWithinTarget_iff_centroid_in_region acceptPoints demoRegion
      identityTransform (by decide)).mpr
      (by norm_num [acceptPoints, demoRegion, identityTransform]),
   by norm_num [isWithinTarget, rejectPoints, demoRegion,
     identityTransform, inTargetRegion, mapToScreen, centroid]⟩

/-- Claim C6: for every decode result whose point set has fewer than 2
points and every target region and transform, the geometry filter
rejects.  The filter is a total function, so no such input can make it
throw. -/
theorem isWithinTarget_rejects_small_point_sets (ps : List ResultPoint)
    (r : TargetRegion) (T : ViewportTransform) (h : ps.length < 2) :
    isWithinTarget ps r T = false := by
  simp [isWithinTarget, h]

/-- Claim C6 witness: a single-point result is rejected even when the
point itself lies inside the target region. -/
theorem isWithinTarget_rejects_small_point_sets_witness :
    isWithinTarget [{ x := 150, y := 120 }] demoRegion
      identityTransform = false :=
  isWithinTarget_rejects_small_point_sets _ _ _ (by decide)

/-- Claim C7: the clear-scans endpoint removes all stored scans and is
idempotent — after one call the stored collection is empty and the route
responds with success; calling it again from the resulting state succeeds
and is exactly the same route result (empty collection again). -/
theorem clearRoute_empties_and_idempotent (st : MemStorage) :
    (clearRoute st).1.scans = [] ∧ (clearRoute st).2 = true ∧
    clearRoute (clearRoute st).1 = clearRoute st :=
  ⟨rfl, rfl, rfl⟩

/-- Claim C7 witness: clearing a one-scan storage empties it, succeeds
and a second consecutive call is a no-op that also succeeds. -/
theorem clearRoute_empties_and_idempotent_witness :
    (clearRoute oneScanStore).1.scans = [] ∧
    (clearRoute oneScanStore).2 = true ∧
    clearRoute (clearRoute oneScanStore).1 = clearRoute oneScanStore :=
  clearRoute_empties_and_idempotent oneScanStore

/-- Claim C8: for every create-scan request whose payload fails schema
validation, the route responds 400 (`badRequest`), the storage is
returned unchanged — no scan record is created — and consequently every
recent-scans query gives the same answer as before the request. -/
theorem postScanRoute_invalid_leaves_storage (st : MemStorage) (now : Int)
    (b : RawBody) (h : safeParse b = none) :
    postScanRoute st now b = (st, PostScanResponse.badRequest) ∧
    ∀ p, getRecentRoute (postScanRoute st now b).1 p =
      getRecentRoute st p := by
  have hroute : postScanRoute st now b =
      (st, PostScanResponse.badRequest) := by
    simp [postScanRoute, h]
  exact ⟨hroute, fun p => by rw [hroute]⟩

/-- Claim C8 witness: the spec scenario — a create-scan request with
empty `content` yields a validation failure, the storage is unchanged and
the recent-scans list is the same afterwards. -/
theorem postScanRoute_invalid_leaves_storage_witness :
    postScanRoute oneScanStore 5 emptyContentBody =
        (oneScanStore, PostScanResponse.badRequest) ∧
    getRecentRoute (postScanRoute oneScanStore 5 emptyContentBody).1
        LimitParam.absent = getRecentRoute oneScanStore LimitParam.absent :=
  ⟨(postScanRoute_invalid_leaves_storage oneScanStore 5 emptyContentBody
      (by decide)).1,
   (postScanRoute_invalid_leaves_storage oneScanStore 5 emptyContentBody
      (by decide)).2 LimitParam.absent⟩

/-- Claim C9 counterexample: a request that explicitly supplies
`limit = 0` against a storage holding one scan receives one scan, not "at
most `limit` scans": `Number(req.query.limit) || 10` coerces the supplied
0 to the default 10. -/
theorem getRecentRoute_limit_zero_cex :
    (getRecentRoute oneScanStore (LimitParam.num 0)).length = 1 ∧
    ¬ (getRecentRoute oneScanStore (LimitParam.num 0)).length ≤ 0 := by
  have h : sortNewestFirst [demoScan] = [demoScan] :=
    List.mergeSort_of_sorted (List.pairwise_singleton _ _)
  constructor <;>
    simp [getRecentRoute, MemStorage.getRecentScans, oneScanStore,
      parseLimit, h, jsSliceTo]

/-- Claim C9 (amended): for every storage and every request whose limit
parameter is absent, non-numeric, or a number `n ≥ 0`, the response of
the list-recent-scans endpoint contains at most the EFFECTIVE limit
(`Number(limit) || 10`, i.e. `n` for `n ≥ 1` and the default 10
otherwise) many scans, ordered newest-first by timestamp. -/
theorem getRecentRoute_length_le_effective_limit (st : MemStorage)
    (p : LimitParam) (h : 0 ≤ parseLimit p) :
    (getRecentRoute st p).length ≤ (parseLimit p).toNat ∧
    (getRecentRoute st p).Pairwise
      (fun a b => b.timestamp ≤ a.timestamp) := by
  have hval : getRecentRoute st p =
      (sortNewestFirst st.scans).take (parseLimit p).toNat := by
    unfold getRecentRoute MemStorage.getRecentScans jsSliceTo
    rw [if_pos h]
  rw [hval]
  exact ⟨List.length_take_le _ _, (sortNewestFirst_sorted st.scans).take⟩

/-- Claim C9 amended witness: a request with limit 5 against the one-scan
storage receives at most 5 scans, newest-first. -/
theorem getRecentRoute_length_le_effective_limit_witness :
    (getRecentRoute oneScanStore (LimitParam.num 5)).length ≤
        (parseLimit (LimitParam.num 5)).toNat ∧
    (getRecentRoute oneScanStore (LimitParam.num 5)).Pairwise
        (fun a b => b.timestamp ≤ a.timestamp) :=
  getRecentRoute_length_le_effective_limit oneScanStore (LimitParam.num 5)
    (by decide)

/-- Claim C10: `Number(req.query.limit) || 10` substitutes the default 10
whenever the limit query parameter is absent, non-numeric, or equal to 0;
in particular a request with `limit = 0` is answered exactly like a
request with no limit — up to 10 scans, and a non-empty list whenever the
storage is non-empty, rather than an empty list.  The parse is a total
function of the request parameter, so no request value can make it
throw. -/
theorem parseLimit_defaults (st : MemStorage) :
    parseLimit LimitParam.absent = 10 ∧
    parseLimit LimitParam.nonNumeric = 10 ∧
    parseLimit (LimitParam.num 0) = 10 ∧
    getRecentRoute st (LimitParam.num 0) =
        getRecentRoute st LimitParam.absent ∧
    (getRecentRoute st (LimitParam.num 0)).length ≤ 10 ∧
    (st.scans ≠ [] → getRecentRoute st (LimitParam.num 0) ≠ []) := by
  have hval : getRecentRoute st (LimitParam.num 0) =
      (sortNewestFirst st.scans).take 10 := rfl
  refine ⟨rfl, rfl, rfl, rfl, ?_, ?_⟩
  · rw [hval]
    exact List.length_take_le _ _
  · intro hne
    have hlen : (getRecentRoute st (LimitParam.num 0)).length =
        min 10 st.scans.length := by
      rw [hval]
      simp [sortNewestFirst]
    have hpos : 0 < st.scans.length := List.length_pos.mpr hne
    have : 0 < (getRecentRoute st (LimitParam.num 0)).length := by
      rw [hlen]; omega
    exact List.length_pos.mp this

/-- Claim C10 witness: against the one-scan storage, a request with
`limit = 0` is answered like a request with no limit and receives a
non-empty response of at most 10 scans. -/
theorem parseLimit_defaults_witness :
    parseLimit LimitParam.absent = 10 ∧
    parseLimit LimitParam.nonNumeric = 10 ∧
    parseLimit (LimitParam.num 0) = 10 ∧
    getRecentRoute oneScanStore (LimitParam.num 0) =
        getRecentRoute oneScanStore LimitParam.absent ∧
    (getRecentRoute oneScanStore (LimitParam.num 0)).length ≤ 10 ∧
    getRecentRoute oneScanStore (LimitParam.num 0) ≠ [] :=
  ⟨(parseLimit_defaults oneScanStore).1,
   (parseLimit_defaults oneScanStore).2.1,
   (parseLimit_defaults oneScanStore).2.2.1,
   (parseLimit_defaults oneScanStore).2.2.2.1,
   (parseLimit_defaults oneScanStore).2.2.2.2.1,
   (parseLimit_defaults oneScanStore).2.2.2.2.2 (by decide)⟩

end BarcodeLive
